import Mathlib

/-
Verification development for the go-snake repository.

The repository contains two near-identical game packages (a 2D variant and a
3D variant), a config loader, and a JSON-backed high-score/settings store.
This file gives a shallow embedding of the game-state data model and the
operations the claims are about:

* namespace `config`  — the `Config.Game` section of internal/config/config.go
  (the graphics/controls/colors sections are render-only glue that no game
  operation reads, so they are not embedded);
* namespace `game2d`  — the 2D game package (Direction, Point2D, Snake, Game,
  Reset, PlaceFood, ChangeDirection, Update, TogglePause, IsGameOver);
* namespace `game3d`  — the 3D game package (the same operations over Point3D
  and a six-way Direction);
* namespace `storage` — the storage package (HighScore, Settings, GameData,
  NewStorage, AddHighScore).

Modelling conventions, chosen once and used throughout:

* Go `int` is embedded as `Int`; Go `float64` fields (speeds, volumes) are
  embedded as `ℚ` with exact arithmetic — every speed/volume computation in
  the source is a plain comparison or a single addition, so no rounding
  behaviour is load-bearing for any claim.
* Wall-clock time (`time.Time`, `g.LastUpdate`) is abstracted to a `Nat`
  timestamp `now` passed to each operation; the elapsed-time throttle
  `now.Sub(g.LastUpdate) < updateInterval` in `Update` is abstracted to a
  boolean parameter `timeOk` ("enough time has elapsed"): a tick with
  `State = Playing` and `timeOk = true` is an accepted tick.
* `math/rand` is abstracted to an explicit candidate stream `cands : ℕ → Point`
  (the successive values drawn by the rejection loop); `PlaceFood` returns the
  first candidate free of the snake body, via `Nat.find` on the hypothesis
  that some candidate is free — exactly the unbounded retry loop of the
  source, which terminates precisely when such a candidate exists.  `Update`
  takes the food-placement outcome as a function `pf : List Point → Point` of
  the body at placement time, abstracting its internal `g.PlaceFood()` call.
* The `OnScoreChange` callback performs no state change on the `Game` value
  and is not embedded.
-/

namespace config

/-- The `Game` section of `Config` (internal/config/config.go): grid size,
initial/increment/max speed and initial snake length. -/
structure GameConfig where
  GridSize : Int
  InitialSpeed : ℚ
  SpeedIncrement : ℚ
  MaxSpeed : ℚ
  InitialLength : Int
deriving DecidableEq

/-- `Config` from internal/config/config.go, restricted to the section the
game logic reads. -/
structure Config where
  Game : GameConfig
deriving DecidableEq

end config

namespace game2d

/-- `Direction` of the 2D game package (`Left`/`Right`/`Up`/`Down`). -/
inductive Direction where
  | Left
  | Right
  | Up
  | Down
deriving DecidableEq

/-- `Point2D`: a position in 2D space. -/
structure Point2D where
  X : Int
  Y : Int
deriving DecidableEq

/-- `Snake`: body segments head-first, current direction, pending growth. -/
structure Snake where
  Body : List Point2D
  Direction : Direction
  GrowCount : Int
deriving DecidableEq

/-- `GameState`: `Playing`, `Paused` or `GameOver`. -/
inductive GameState where
  | Playing
  | Paused
  | GameOver
deriving DecidableEq

/-- `Game`: the 2D game struct.  `LastUpdate` is the abstract timestamp of the
last accepted tick. -/
structure Game where
  Config : config.Config
  Snake : Snake
  Food : Point2D
  Grid : Int
  Score : Int
  State : GameState
  Speed : ℚ
  LastUpdate : Nat
deriving DecidableEq

/-- The `opposites` map of `ChangeDirection`. -/
def opposite : Direction → Direction
  | Direction.Up => Direction.Down
  | Direction.Down => Direction.Up
  | Direction.Left => Direction.Right
  | Direction.Right => Direction.Left

/-- One movement step: the `switch g.Snake.Direction` block of `Update`
(Ebiten Y grows downward, so `Up` decrements Y and `Down` increments it). -/
def Point2D.step (p : Point2D) (d : Direction) : Point2D :=
  match d with
  | Direction.Up => { p with Y := p.Y - 1 }
  | Direction.Down => { p with Y := p.Y + 1 }
  | Direction.Left => { p with X := p.X - 1 }
  | Direction.Right => { p with X := p.X + 1 }

/-- Default used by `List.headI` below.  Go indexes `g.Snake.Body[0]`
directly (a panic on an empty body); every state the claims touch has a
nonempty body, so the default is never exercised there. -/
instance : Inhabited Point2D := ⟨⟨0, 0⟩⟩

/-- The new head computed by an accepted tick: the saved head
(`g.Snake.Body[0]`) moved one cell in the current direction. -/
def Game.nextHead (g : Game) : Point2D :=
  (g.Snake.Body.headI).step g.Snake.Direction

/-- The wall-collision test of `Update`: outside `[0, grid)` on some axis. -/
def outsideGrid (grid : Int) (p : Point2D) : Prop :=
  p.X < 0 ∨ p.X ≥ grid ∨ p.Y < 0 ∨ p.Y ≥ grid

instance (grid : Int) (p : Point2D) : Decidable (outsideGrid grid p) := by
  unfold outsideGrid; infer_instance

/-- The component-wise membership scan shared by the self-collision loop of
`Update` and the overlap loop of `PlaceFood`. -/
def hits (body : List Point2D) (p : Point2D) : Bool :=
  body.any fun part => p.X == part.X && p.Y == part.Y

/-- `Game.PlaceFood`: rejection sampling over the candidate stream `cands`;
the first candidate not overlapping the current body becomes the food.  The
source loop retries unboundedly, so it terminates exactly under the
hypothesis `h` that a free candidate exists. -/
def Game.PlaceFood (g : Game) (cands : ℕ → Point2D)
    (h : ∃ n, hits g.Snake.Body (cands n) = false) : Game :=
  { g with Food := cands (Nat.find h) }

/-- `Game.ChangeDirection`: the new direction is rejected exactly when its
opposite is the current direction (no 180° reversal). -/
def Game.ChangeDirection (g : Game) (dir : Direction) : Game :=
  if opposite dir ≠ g.Snake.Direction then
    { g with Snake := { g.Snake with Direction := dir } }
  else g

/-- `Game.Update`: one call of the update loop.  `now` is the current
timestamp, `timeOk` the elapsed-time throttle (see file header), and `pf`
the outcome of the internal `g.PlaceFood()` call as a function of the body
at placement time (head already prepended, tail not yet removed). -/
def Game.Update (g : Game) (now : Nat) (timeOk : Bool)
    (pf : List Point2D → Point2D) : Game × Bool :=
  if g.State ≠ GameState.Playing then (g, false)
  else if timeOk = false then (g, false)
  else
    let newHead := g.nextHead
    if outsideGrid g.Grid newHead then
      ({ g with State := GameState.GameOver, LastUpdate := now }, true)
    else if hits g.Snake.Body newHead then
      ({ g with State := GameState.GameOver, LastUpdate := now }, true)
    else
      let ateFood : Bool := newHead.X == g.Food.X && newHead.Y == g.Food.Y
      let body1 := newHead :: g.Snake.Body
      if ateFood || decide (0 < g.Snake.GrowCount) then
        let score1 := if ateFood then g.Score + 10 else g.Score
        let food1 := if ateFood then pf body1 else g.Food
        let gc1 := if ateFood then g.Snake.GrowCount + 1 else g.Snake.GrowCount
        let speed1 :=
          if ateFood then
            if g.Speed < g.Config.Game.MaxSpeed then
              g.Speed + g.Config.Game.SpeedIncrement
            else g.Speed
          else g.Speed
        let gc2 := if 0 < gc1 then gc1 - 1 else gc1
        ({ g with
            Snake := ({ Body := body1, Direction := g.Snake.Direction,
                        GrowCount := gc2 }),
            Food := food1, Score := score1, Speed := speed1,
            LastUpdate := now }, true)
      else
        ({ g with
            Snake := ({ g.Snake with Body := body1.dropLast }),
            LastUpdate := now }, true)

/-- `Game.Reset`: snake of length 1 at the grid centre moving `Right`,
`GrowCount = InitialLength - 1`, fresh food, score 0, initial speed,
state `Playing`. -/
def Game.Reset (g : Game) (now : Nat) (pf : List Point2D → Point2D) : Game :=
  let center := g.Grid / 2
  let body : List Point2D := [⟨center, center⟩]
  { g with
      Snake := ({ Body := body, Direction := Direction.Right,
                  GrowCount := g.Config.Game.InitialLength - 1 }),
      Food := pf body,
      Score := 0,
      Speed := g.Config.Game.InitialSpeed,
      State := GameState.Playing,
      LastUpdate := now }

/-- `Game.TogglePause`: flips Playing↔Paused; no-op from GameOver. -/
def Game.TogglePause (g : Game) (now : Nat) : Game :=
  if g.State = GameState.Playing then { g with State := GameState.Paused }
  else if g.State = GameState.Paused then
    { g with State := GameState.Playing, LastUpdate := now }
  else g

/-- `Game.IsGameOver`. -/
def Game.IsGameOver (g : Game) : Bool :=
  g.State == GameState.GameOver

/-- `NewGame`: a zero-valued `Game` carrying the config, then `Reset`.
(Go zero values: empty body, `Direction` 0 = `Left`, zeros elsewhere.) -/
def NewGame (cfg : config.Config) (now : Nat)
    (pf : List Point2D → Point2D) : Game :=
  Game.Reset
    { Config := cfg
      Grid := cfg.Game.GridSize
      Speed := cfg.Game.InitialSpeed
      State := GameState.Paused
      Snake := ({ Body := [], Direction := Direction.Left, GrowCount := 0 })
      Food := ⟨0, 0⟩
      Score := 0
      LastUpdate := 0 } now pf

/-- The states reachable from `NewGame` by the public operations, over all
timestamps, throttle outcomes and food placements. -/
inductive Reachable (cfg : config.Config) : Game → Prop where
  | new : ∀ now pf, Reachable cfg (NewGame cfg now pf)
  | update : ∀ g now timeOk pf, Reachable cfg g →
      Reachable cfg (g.Update now timeOk pf).1
  | changeDir : ∀ g d, Reachable cfg g → Reachable cfg (g.ChangeDirection d)
  | pause : ∀ g now, Reachable cfg g → Reachable cfg (g.TogglePause now)
  | reset : ∀ g now pf, Reachable cfg g → Reachable cfg (g.Reset now pf)

end game2d

namespace game3d

/-- `Direction` of the 3D game package (six axis directions). -/
inductive Direction where
  | Up
  | Down
  | Left
  | Right
  | Forward
  | Backward
deriving DecidableEq

/-- `Point3D`: a position in 3D space. -/
structure Point3D where
  X : Int
  Y : Int
  Z : Int
deriving DecidableEq

/-- `Snake` of the 3D package. -/
structure Snake where
  Body : List Point3D
  Direction : Direction
  GrowCount : Int
deriving DecidableEq

/-- `GameState` of the 3D package. -/
inductive GameState where
  | Playing
  | Paused
  | GameOver
deriving DecidableEq

/-- `Game`: the 3D game struct. -/
structure Game where
  Config : config.Config
  Snake : Snake
  Food : Point3D
  Grid : Int
  Score : Int
  State : GameState
  Speed : ℚ
  LastUpdate : Nat
deriving DecidableEq

/-- The `opposites` map of the 3D `ChangeDirection`. -/
def opposite : Direction → Direction
  | Direction.Up => Direction.Down
  | Direction.Down => Direction.Up
  | Direction.Left => Direction.Right
  | Direction.Right => Direction.Left
  | Direction.Forward => Direction.Backward
  | Direction.Backward => Direction.Forward

/-- One movement step of the 3D `Update` (here `Up` increments Y). -/
def Point3D.step (p : Point3D) (d : Direction) : Point3D :=
  match d with
  | Direction.Up => { p with Y := p.Y + 1 }
  | Direction.Down => { p with Y := p.Y - 1 }
  | Direction.Left => { p with X := p.X - 1 }
  | Direction.Right => { p with X := p.X + 1 }
  | Direction.Forward => { p with Z := p.Z + 1 }
  | Direction.Backward => { p with Z := p.Z - 1 }

instance : Inhabited Point3D := ⟨⟨0, 0, 0⟩⟩

/-- The new head computed by an accepted 3D tick. -/
def Game.nextHead (g : Game) : Point3D :=
  (g.Snake.Body.headI).step g.Snake.Direction

/-- The 3D wall-collision test: outside `[0, grid)` on some axis. -/
def outsideGrid (grid : Int) (p : Point3D) : Prop :=
  p.X < 0 ∨ p.X ≥ grid ∨ p.Y < 0 ∨ p.Y ≥ grid ∨ p.Z < 0 ∨ p.Z ≥ grid

instance (grid : Int) (p : Point3D) : Decidable (outsideGrid grid p) := by
  unfold outsideGrid; infer_instance

/-- Component-wise membership scan of the 3D collision/overlap loops. -/
def hits (body : List Point3D) (p : Point3D) : Bool :=
  body.any fun part => p.X == part.X && p.Y == part.Y && p.Z == part.Z

/-- `Game.PlaceFood` of the 3D package (rejection sampling, as in 2D). -/
def Game.PlaceFood (g : Game) (cands : ℕ → Point3D)
    (h : ∃ n, hits g.Snake.Body (cands n) = false) : Game :=
  { g with Food := cands (Nat.find h) }

/-- `Game.ChangeDirection` of the 3D package. -/
def Game.ChangeDirection (g : Game) (dir : Direction) : Game :=
  if opposite dir ≠ g.Snake.Direction then
    { g with Snake := { g.Snake with Direction := dir } }
  else g

/-- `Game.Update` of the 3D package (same shape as the 2D one). -/
def Game.Update (g : Game) (now : Nat) (timeOk : Bool)
    (pf : List Point3D → Point3D) : Game × Bool :=
  if g.State ≠ GameState.Playing then (g, false)
  else if timeOk = false then (g, false)
  else
    let newHead := g.nextHead
    if outsideGrid g.Grid newHead then
      ({ g with State := GameState.GameOver, LastUpdate := now }, true)
    else if hits g.Snake.Body newHead then
      ({ g with State := GameState.GameOver, LastUpdate := now }, true)
    else
      let ateFood : Bool :=
        newHead.X == g.Food.X && newHead.Y == g.Food.Y && newHead.Z == g.Food.Z
      let body1 := newHead :: g.Snake.Body
      if ateFood || decide (0 < g.Snake.GrowCount) then
        let score1 := if ateFood then g.Score + 10 else g.Score
        let food1 := if ateFood then pf body1 else g.Food
        let gc1 := if ateFood then g.Snake.GrowCount + 1 else g.Snake.GrowCount
        let speed1 :=
          if ateFood then
            if g.Speed < g.Config.Game.MaxSpeed then
              g.Speed + g.Config.Game.SpeedIncrement
            else g.Speed
          else g.Speed
        let gc2 := if 0 < gc1 then gc1 - 1 else gc1
        ({ g with
            Snake := ({ Body := body1, Direction := g.Snake.Direction,
                        GrowCount := gc2 }),
            Food := food1, Score := score1, Speed := speed1,
            LastUpdate := now }, true)
      else
        ({ g with
            Snake := ({ g.Snake with Body := body1.dropLast }),
            LastUpdate := now }, true)

/-- `Game.Reset` of the 3D package: length-1 snake at the centre moving
`Forward`. -/
def Game.Reset (g : Game) (now : Nat) (pf : List Point3D → Point3D) : Game :=
  let center := g.Grid / 2
  let body : List Point3D := [⟨center, center, center⟩]
  { g with
      Snake := ({ Body := body, Direction := Direction.Forward,
                  GrowCount := g.Config.Game.InitialLength - 1 }),
      Food := pf body,
      Score := 0,
      Speed := g.Config.Game.InitialSpeed,
      State := GameState.Playing,
      LastUpdate := now }

/-- `Game.TogglePause` of the 3D package. -/
def Game.TogglePause (g : Game) (now : Nat) : Game :=
  if g.State = GameState.Playing then { g with State := GameState.Paused }
  else if g.State = GameState.Paused then
    { g with State := GameState.Playing, LastUpdate := now }
  else g

/-- `Game.IsGameOver` of the 3D package. -/
def Game.IsGameOver (g : Game) : Bool :=
  g.State == GameState.GameOver

/-- `NewGame` of the 3D package (Go zero `Direction` is `Up` here). -/
def NewGame (cfg : config.Config) (now : Nat)
    (pf : List Point3D → Point3D) : Game :=
  Game.Reset
    { Config := cfg
      Grid := cfg.Game.GridSize
      Speed := cfg.Game.InitialSpeed
      State := GameState.Paused
      Snake := ({ Body := [], Direction := Direction.Up, GrowCount := 0 })
      Food := ⟨0, 0, 0⟩
      Score := 0
      LastUpdate := 0 } now pf

/-- Reachable states of the 3D game. -/
inductive Reachable (cfg : config.Config) : Game → Prop where
  | new : ∀ now pf, Reachable cfg (NewGame cfg now pf)
  | update : ∀ g now timeOk pf, Reachable cfg g →
      Reachable cfg (g.Update now timeOk pf).1
  | changeDir : ∀ g d, Reachable cfg g → Reachable cfg (g.ChangeDirection d)
  | pause : ∀ g now, Reachable cfg g → Reachable cfg (g.TogglePause now)
  | reset : ∀ g now pf, Reachable cfg g → Reachable cfg (g.Reset now pf)

end game3d

namespace storage

/-- `HighScore`: player name, score and timestamp (`time.Time` abstracted
to a `Nat` timestamp, as elsewhere in this file). -/
structure HighScore where
  Player : String
  Score : Int
  Date : Nat
deriving DecidableEq

/-- `Settings`: volume levels (float64 embedded as ℚ) and difficulty. -/
structure Settings where
  MusicVolume : ℚ
  SfxVolume : ℚ
  Difficulty : String
deriving DecidableEq

/-- `GameData`: all persistent game data. -/
structure GameData where
  HighScores : List HighScore
  Settings : Settings
deriving DecidableEq

/-- `Storage`: file path plus in-memory data. -/
structure Storage where
  filePath : String
  data : GameData
deriving DecidableEq

/-- The default `GameData` built by `NewStorage` when `Load` fails. -/
def defaultGameData : GameData :=
  { HighScores := []
    Settings := ({ MusicVolume := 7/10, SfxVolume := 8/10,
                   Difficulty := "medium" }) }

/-- `NewStorage`.  File I/O is abstracted: `loadResult` is the outcome of
`storage.Load()` (`some d` when the file was read and parsed, `none` when it
was absent or unreadable) and `saveOk` the outcome of the `storage.Save()`
call that persists fresh defaults.  The returned `Bool` records whether the
defaults were written to the storage file; `none` models the `(nil, err)`
return when saving the defaults fails. -/
def NewStorage (path : String) (loadResult : Option GameData)
    (saveOk : Bool) : Option (Storage × Bool) :=
  match loadResult with
  | some d => some ({ filePath := path, data := d }, false)
  | none =>
      if saveOk then
        some ({ filePath := path, data := defaultGameData }, true)
      else none

/-- The comparator of `AddHighScore`: sorted so scores are descending.
(Go sorts with `sort.Slice` and the strict comparator
`hs[i].Score > hs[j].Score`; `sort.Slice` is an unspecified-tie-order
comparison sort, embedded here as a merge sort under the corresponding
total order `b.Score ≤ a.Score`.) -/
def scoreDesc (a b : HighScore) : Bool :=
  decide (b.Score ≤ a.Score)

/-- `Storage.AddHighScore`: append the new entry, sort descending by score,
keep only the top 10. -/
def Storage.AddHighScore (s : Storage) (player : String) (score : Int)
    (now : Nat) : Storage :=
  let newScore : HighScore := { Player := player, Score := score, Date := now }
  let hs := s.data.HighScores ++ [newScore]
  let sorted := hs.mergeSort scoreDesc
  let top := if 10 < sorted.length then sorted.take 10 else sorted
  { s with data := { s.data with HighScores := top } }

/-- `Storage.GetHighScores`. -/
def Storage.GetHighScores (s : Storage) : List HighScore :=
  s.data.HighScores

/-- `Storage.GetSettings`. -/
def Storage.GetSettings (s : Storage) : Settings :=
  s.data.Settings

end storage

/-! ## Theorems about the claims -/

theorem opposite2_involutive (d : game2d.Direction) :
    game2d.opposite (game2d.opposite d) = d := by
  cases d <;> rfl

theorem opposite3_involutive (d : game3d.Direction) :
    game3d.opposite (game3d.opposite d) = d := by
  cases d <;> rfl

/-- C5: in both game variants, calling `ChangeDirection` with the opposite of
the current direction leaves `Snake.Direction` unchanged, and calling it with
any direction that is not the opposite of the current one sets
`Snake.Direction` to that direction. -/
theorem C5_change_direction_no_reversal :
    (∀ (g : game2d.Game),
        ((g.ChangeDirection (game2d.opposite g.Snake.Direction)).Snake.Direction
          = g.Snake.Direction))
    ∧ (∀ (g : game2d.Game) (d : game2d.Direction),
        d ≠ game2d.opposite g.Snake.Direction →
        (g.ChangeDirection d).Snake.Direction = d)
    ∧ (∀ (g : game3d.Game),
        ((g.ChangeDirection (game3d.opposite g.Snake.Direction)).Snake.Direction
          = g.Snake.Direction))
    ∧ (∀ (g : game3d.Game) (d : game3d.Direction),
        d ≠ game3d.opposite g.Snake.Direction →
        (g.ChangeDirection d).Snake.Direction = d) := by
  refine ⟨?_, ?_, ?_, ?_⟩
  · intro g
    simp [game2d.Game.ChangeDirection, opposite2_involutive]
  · intro g d hd
    have hcond : game2d.opposite d ≠ g.Snake.Direction := by
      intro hc
      exact hd (by rw [← hc, opposite2_involutive])
    simp [game2d.Game.ChangeDirection, hcond]
  · intro g
    simp [game3d.Game.ChangeDirection, opposite3_involutive]
  · intro g d hd
    have hcond : game3d.opposite d ≠ g.Snake.Direction := by
      intro hc
      exact hd (by rw [← hc, opposite3_involutive])
    simp [game3d.Game.ChangeDirection, hcond]

/-- C1: on an accepted tick with no wall or self collision whose new head
equals the food position, `Update` increases `Score` by exactly 10; and the
food position chosen by `PlaceFood` never coincides with any segment of the
snake body present at placement time. -/
theorem C1_eat_scores_ten_and_food_placed_free :
    (∀ (g : game2d.Game) (now : Nat) (pf : List game2d.Point2D → game2d.Point2D),
        g.State = game2d.GameState.Playing →
        ¬ game2d.outsideGrid g.Grid g.nextHead →
        game2d.hits g.Snake.Body g.nextHead = false →
        g.nextHead = g.Food →
        (g.Update now true pf).1.Score = g.Score + 10)
    ∧ (∀ (g : game2d.Game) (cands : ℕ → game2d.Point2D)
        (h : ∃ n, game2d.hits g.Snake.Body (cands n) = false),
        game2d.hits g.Snake.Body ((g.PlaceFood cands h).Food) = false) := by
  constructor
  · intro g now pf hState hWall hSelf hFood
    rw [hFood] at hWall hSelf
    simp [game2d.Game.Update, hState, hFood, hWall, hSelf]
  · intro g cands h
    simpa [game2d.Game.PlaceFood] using Nat.find_spec h

/-- Witness for C1 at a concrete game: head (1,1) moving Right on a 3×3
grid, food at (2,1); the tick scores 10, and `PlaceFood` with a stream whose
first free candidate is (0,0) places food off the body. -/
theorem C1_witness :
    ((⟨⟨⟨3, 5, 1, 20, 1⟩⟩, ⟨[⟨1, 1⟩], game2d.Direction.Right, 0⟩, ⟨2, 1⟩, 3, 0,
        game2d.GameState.Playing, 5, 0⟩ : game2d.Game).Update 1 true
          (fun _ => ⟨0, 0⟩)).1.Score
      = (0 : Int) + 10 := by
  have h := C1_eat_scores_ten_and_food_placed_free.1
    (⟨⟨⟨3, 5, 1, 20, 1⟩⟩, ⟨[⟨1, 1⟩], game2d.Direction.Right, 0⟩, ⟨2, 1⟩, 3, 0,
        game2d.GameState.Playing, 5, 0⟩ : game2d.Game) 1 (fun _ => ⟨0, 0⟩)
    rfl (by decide) (by decide) (by decide)
  exact h

/-- C2 counterexample: a concrete accepted eating tick (head (1,1) moving
Right on a 3×3 grid, food at (2,1), `GrowCount = 0`).  The tick eats the
food, yet `GrowCount` after the tick is 0, not 0 + 1: the `GrowCount++` of
the eating branch is immediately consumed by the `GrowCount--` that follows
it in the same tick. -/
theorem C2_counterexample :
    ¬ (((⟨⟨⟨3, 5, 1, 20, 1⟩⟩, ⟨[⟨1, 1⟩], game2d.Direction.Right, 0⟩, ⟨2, 1⟩,
          3, 0, game2d.GameState.Playing, 5, 0⟩ : game2d.Game).Update 1 true
            (fun _ => ⟨0, 0⟩)).1.Snake.GrowCount
        = (⟨⟨⟨3, 5, 1, 20, 1⟩⟩, ⟨[⟨1, 1⟩], game2d.Direction.Right, 0⟩, ⟨2, 1⟩,
          3, 0, game2d.GameState.Playing, 5, 0⟩ : game2d.Game).Snake.GrowCount
          + 1) := by
  decide

/-- C2 amended: on an accepted tick that eats the food (no collision), with
the invariant `0 ≤ GrowCount` that every reachable state satisfies,
`Snake.GrowCount` after the tick equals its value before the tick — the
increment performed by the eating branch is cancelled by the decrement of
the same tick; the net growth appears as tail retention, not as a change of
`GrowCount`.  This holds in both the 2D and the 3D variants. -/
theorem C2_growcount_unchanged_on_eat :
    (∀ (g : game2d.Game) (now : Nat) (pf : List game2d.Point2D → game2d.Point2D),
        g.State = game2d.GameState.Playing →
        ¬ game2d.outsideGrid g.Grid g.nextHead →
        game2d.hits g.Snake.Body g.nextHead = false →
        g.nextHead = g.Food →
        0 ≤ g.Snake.GrowCount →
        (g.Update now true pf).1.Snake.GrowCount = g.Snake.GrowCount)
    ∧ (∀ (g : game3d.Game) (now : Nat) (pf : List game3d.Point3D → game3d.Point3D),
        g.State = game3d.GameState.Playing →
        ¬ game3d.outsideGrid g.Grid g.nextHead →
        game3d.hits g.Snake.Body g.nextHead = false →
        g.nextHead = g.Food →
        0 ≤ g.Snake.GrowCount →
        (g.Update now true pf).1.Snake.GrowCount = g.Snake.GrowCount) := by
  constructor
  · intro g now pf hState hWall hSelf hFood hGc
    rw [hFood] at hWall hSelf
    simp [game2d.Game.Update, hState, hFood, hWall, hSelf]
    omega
  · intro g now pf hState hWall hSelf hFood hGc
    rw [hFood] at hWall hSelf
    simp [game3d.Game.Update, hState, hFood, hWall, hSelf]
    omega

/-- Witness for the amended C2 at concrete eating ticks in both variants. -/
theorem C2_witness :
    (((⟨⟨⟨3, 5, 1, 20, 1⟩⟩, ⟨[⟨1, 1⟩], game2d.Direction.Right, 0⟩, ⟨2, 1⟩,
        3, 0, game2d.GameState.Playing, 5, 0⟩ : game2d.Game).Update 1 true
          (fun _ => ⟨0, 0⟩)).1.Snake.GrowCount = (0 : Int))
    ∧ (((⟨⟨⟨3, 5, 1, 20, 1⟩⟩, ⟨[⟨1, 1, 1⟩], game3d.Direction.Forward, 0⟩,
        ⟨1, 1, 2⟩, 3, 0, game3d.GameState.Playing, 5, 0⟩ : game3d.Game).Update
          1 true (fun _ => ⟨0, 0, 0⟩)).1.Snake.GrowCount = (0 : Int)) := by
  constructor
  · exact C2_growcount_unchanged_on_eat.1
      (⟨⟨⟨3, 5, 1, 20, 1⟩⟩, ⟨[⟨1, 1⟩], game2d.Direction.Right, 0⟩, ⟨2, 1⟩,
        3, 0, game2d.GameState.Playing, 5, 0⟩ : game2d.Game) 1 (fun _ => ⟨0, 0⟩)
      rfl (by decide) (by decide) (by decide) (by decide)
  · exact C2_growcount_unchanged_on_eat.2
      (⟨⟨⟨3, 5, 1, 20, 1⟩⟩, ⟨[⟨1, 1, 1⟩], game3d.Direction.Forward, 0⟩,
        ⟨1, 1, 2⟩, 3, 0, game3d.GameState.Playing, 5, 0⟩ : game3d.Game) 1
      (fun _ => ⟨0, 0, 0⟩) rfl (by decide) (by decide) (by decide) (by decide)

theorem update2_Config (g : game2d.Game) (now : Nat) (timeOk : Bool)
    (pf : List game2d.Point2D → game2d.Point2D) :
    (g.Update now timeOk pf).1.Config = g.Config := by
  simp only [game2d.Game.Update]
  split_ifs <;> rfl

theorem update2_Speed_cases (g : game2d.Game) (now : Nat) (timeOk : Bool)
    (pf : List game2d.Point2D → game2d.Point2D) :
    (g.Update now timeOk pf).1.Speed = g.Speed ∨
      (g.Speed < g.Config.Game.MaxSpeed ∧
        (g.Update now timeOk pf).1.Speed
          = g.Speed + g.Config.Game.SpeedIncrement) := by
  simp only [game2d.Game.Update]
  split_ifs <;> simp_all

theorem changeDir2_frame (g : game2d.Game) (d : game2d.Direction) :
    (g.ChangeDirection d).Config = g.Config
      ∧ (g.ChangeDirection d).Speed = g.Speed := by
  unfold game2d.Game.ChangeDirection
  split_ifs <;> exact ⟨rfl, rfl⟩

theorem pause2_frame (g : game2d.Game) (now : Nat) :
    (g.TogglePause now).Config = g.Config
      ∧ (g.TogglePause now).Speed = g.Speed := by
  unfold game2d.Game.TogglePause
  split_ifs <;> exact ⟨rfl, rfl⟩

theorem reach2_speed_invariant (cfg : config.Config)
    (hinit : cfg.Game.InitialSpeed
      < cfg.Game.MaxSpeed + cfg.Game.SpeedIncrement)
    (g : game2d.Game) (h : game2d.Reachable cfg g) :
    g.Config = cfg
      ∧ g.Speed < cfg.Game.MaxSpeed + cfg.Game.SpeedIncrement := by
  induction h with
  | new now pf => exact ⟨rfl, hinit⟩
  | update g now timeOk pf hg ih =>
      obtain ⟨hc, hs⟩ := ih
      refine ⟨by rw [update2_Config]; exact hc, ?_⟩
      rcases update2_Speed_cases g now timeOk pf with heq | ⟨hlt, heq⟩
      · rw [heq]; exact hs
      · rw [heq, hc]
        rw [hc] at hlt
        exact add_lt_add_right hlt _
  | changeDir g d hg ih =>
      obtain ⟨hc, hs⟩ := ih
      exact ⟨(changeDir2_frame g d).1.trans hc, (changeDir2_frame g d).2 ▸ hs⟩
  | pause g now hg ih =>
      obtain ⟨hc, hs⟩ := ih
      exact ⟨(pause2_frame g now).1.trans hc, (pause2_frame g now).2 ▸ hs⟩
  | reset g now pf hg ih =>
      obtain ⟨hc, hs⟩ := ih
      refine ⟨?_, ?_⟩
      · simpa [game2d.Game.Reset] using hc
      · simpa [game2d.Game.Reset, hc] using hinit

theorem update3_Config (g : game3d.Game) (now : Nat) (timeOk : Bool)
    (pf : List game3d.Point3D → game3d.Point3D) :
    (g.Update now timeOk pf).1.Config = g.Config := by
  simp only [game3d.Game.Update]
  split_ifs <;> rfl

theorem update3_Speed_cases (g : game3d.Game) (now : Nat) (timeOk : Bool)
    (pf : List game3d.Point3D → game3d.Point3D) :
    (g.Update now timeOk pf).1.Speed = g.Speed ∨
      (g.Speed < g.Config.Game.MaxSpeed ∧
        (g.Update now timeOk pf).1.Speed
          = g.Speed + g.Config.Game.SpeedIncrement) := by
  simp only [game3d.Game.Update]
  split_ifs <;> simp_all

theorem changeDir3_frame (g : game3d.Game) (d : game3d.Direction) :
    (g.ChangeDirection d).Config = g.Config
      ∧ (g.ChangeDirection d).Speed = g.Speed := by
  unfold game3d.Game.ChangeDirection
  split_ifs <;> exact ⟨rfl, rfl⟩

theorem pause3_frame (g : game3d.Game) (now : Nat) :
    (g.TogglePause now).Config = g.Config
      ∧ (g.TogglePause now).Speed = g.Speed := by
  unfold game3d.Game.TogglePause
  split_ifs <;> exact ⟨rfl, rfl⟩

theorem reach3_speed_invariant (cfg : config.Config)
    (hinit : cfg.Game.InitialSpeed
      < cfg.Game.MaxSpeed + cfg.Game.SpeedIncrement)
    (g : game3d.Game) (h : game3d.Reachable cfg g) :
    g.Config = cfg
      ∧ g.Speed < cfg.Game.MaxSpeed + cfg.Game.SpeedIncrement := by
  induction h with
  | new now pf => exact ⟨rfl, hinit⟩
  | update g now timeOk pf hg ih =>
      obtain ⟨hc, hs⟩ := ih
      refine ⟨by rw [update3_Config]; exact hc, ?_⟩
      rcases update3_Speed_cases g now timeOk pf with heq | ⟨hlt, heq⟩
      · rw [heq]; exact hs
      · rw [heq, hc]
        rw [hc] at hlt
        exact add_lt_add_right hlt _
  | changeDir g d hg ih =>
      obtain ⟨hc, hs⟩ := ih
      exact ⟨(changeDir3_frame g d).1.trans hc, (changeDir3_frame g d).2 ▸ hs⟩
  | pause g now hg ih =>
      obtain ⟨hc, hs⟩ := ih
      exact ⟨(pause3_frame g now).1.trans hc, (pause3_frame g now).2 ▸ hs⟩
  | reset g now pf hg ih =>
      obtain ⟨hc, hs⟩ := ih
      refine ⟨?_, ?_⟩
      · simpa [game3d.Game.Reset] using hc
      · simpa [game3d.Game.Reset, hc] using hinit

/-- C3 counterexample: the claim "Speed never exceeds Config.Game.MaxSpeed"
is false.  Config: grid 3, InitialSpeed 8, SpeedIncrement 5, MaxSpeed 10,
InitialLength 1.  The state reached from `NewGame` by one accepted tick that
eats the food has Speed 8 + 5 = 13 > 10: the guard `Speed < MaxSpeed` is
checked before adding the increment, so Speed can overshoot MaxSpeed by up
to SpeedIncrement. -/
theorem C3_counterexample :
    game2d.Reachable ⟨⟨3, 8, 5, 10, 1⟩⟩
      ((game2d.NewGame ⟨⟨3, 8, 5, 10, 1⟩⟩ 0 (fun _ => ⟨2, 1⟩)).Update 1 true
        (fun _ => ⟨0, 0⟩)).1
    ∧ ((game2d.NewGame ⟨⟨3, 8, 5, 10, 1⟩⟩ 0 (fun _ => ⟨2, 1⟩)).Update 1 true
        (fun _ => ⟨0, 0⟩)).1.Speed
      > (⟨⟨3, 8, 5, 10, 1⟩⟩ : config.Config).Game.MaxSpeed := by
  constructor
  · exact game2d.Reachable.update _ 1 true _ (game2d.Reachable.new 0 _)
  · have : ((game2d.NewGame ⟨⟨3, 8, 5, 10, 1⟩⟩ 0 (fun _ => ⟨2, 1⟩)).Update 1
        true (fun _ => ⟨0, 0⟩)).1.Speed = 8 + 5 := by
      simp [game2d.NewGame, game2d.Game.Reset, game2d.Game.Update,
        game2d.Game.nextHead, game2d.Point2D.step, game2d.outsideGrid,
        game2d.hits]
      norm_num
    rw [this]
    norm_num

/-- C3 amended: for every config whose InitialSpeed is below
MaxSpeed + SpeedIncrement, every reachable state of either game variant
(under any sequence of Update, ChangeDirection, TogglePause and Reset
calls) has Speed strictly below MaxSpeed + SpeedIncrement.  Speed can
exceed MaxSpeed itself (see the counterexample): the source only checks
`Speed < MaxSpeed` before adding the increment, so the tight bound the
code maintains is MaxSpeed + SpeedIncrement, not MaxSpeed. -/
theorem C3_speed_below_max_plus_increment :
    (∀ (cfg : config.Config) (g : game2d.Game),
        cfg.Game.InitialSpeed < cfg.Game.MaxSpeed + cfg.Game.SpeedIncrement →
        game2d.Reachable cfg g →
        g.Speed < cfg.Game.MaxSpeed + cfg.Game.SpeedIncrement)
    ∧ (∀ (cfg : config.Config) (g : game3d.Game),
        cfg.Game.InitialSpeed < cfg.Game.MaxSpeed + cfg.Game.SpeedIncrement →
        game3d.Reachable cfg g →
        g.Speed < cfg.Game.MaxSpeed + cfg.Game.SpeedIncrement) :=
  ⟨fun cfg g hinit h => (reach2_speed_invariant cfg hinit g h).2,
   fun cfg g hinit h => (reach3_speed_invariant cfg hinit g h).2⟩

/-- Witness for the amended C3 at the freshly created games of a concrete
config (grid 3, InitialSpeed 8, SpeedIncrement 5, MaxSpeed 10). -/
theorem C3_witness :
    ((game2d.NewGame ⟨⟨3, 8, 5, 10, 1⟩⟩ 0 (fun _ => ⟨2, 1⟩)).Speed
        < (10 : ℚ) + 5)
    ∧ ((game3d.NewGame ⟨⟨3, 8, 5, 10, 1⟩⟩ 0 (fun _ => ⟨2, 1, 1⟩)).Speed
        < (10 : ℚ) + 5) :=
  ⟨C3_speed_below_max_plus_increment.1 ⟨⟨3, 8, 5, 10, 1⟩⟩ _ (by norm_num)
      (game2d.Reachable.new 0 _),
   C3_speed_below_max_plus_increment.2 ⟨⟨3, 8, 5, 10, 1⟩⟩ _ (by norm_num)
      (game3d.Reachable.new 0 _)⟩

/-- C4: on an accepted tick whose computed new head lies outside
`[0, gridSize)` on some axis, `Update` sets the state to `GameOver`; and
from `GameOver`, `Update` is a no-op returning `false` (the state is
unchanged) and `TogglePause` does not change the game — so no operation
other than `Reset` leaves `GameOver`. -/
theorem C4_wall_gameover_and_gameover_terminal :
    (∀ (g : game2d.Game) (now : Nat)
        (pf : List game2d.Point2D → game2d.Point2D),
        g.State = game2d.GameState.Playing →
        game2d.outsideGrid g.Grid g.nextHead →
        (g.Update now true pf).1.State = game2d.GameState.GameOver)
    ∧ (∀ (g : game2d.Game) (now : Nat) (timeOk : Bool)
        (pf : List game2d.Point2D → game2d.Point2D),
        g.State = game2d.GameState.GameOver →
        g.Update now timeOk pf = (g, false))
    ∧ (∀ (g : game2d.Game) (now : Nat),
        g.State = game2d.GameState.GameOver →
        g.TogglePause now = g) := by
  refine ⟨?_, ?_, ?_⟩
  · intro g now pf hState hWall
    simp [game2d.Game.Update, hState, hWall]
  · intro g now timeOk pf hState
    simp [game2d.Game.Update, hState]
  · intro g now hState
    simp [game2d.Game.TogglePause, hState]

/-- Witness for C4: a head at (0,1) moving Left on a 3×3 grid steps outside
the grid and the tick ends in GameOver; from a GameOver state, Update
returns the state unchanged with `false` and TogglePause is the identity. -/
theorem C4_witness :
    (((⟨⟨⟨3, 5, 1, 20, 1⟩⟩, ⟨[⟨0, 1⟩], game2d.Direction.Left, 0⟩, ⟨2, 2⟩,
        3, 0, game2d.GameState.Playing, 5, 0⟩ : game2d.Game).Update 1 true
          (fun _ => ⟨0, 0⟩)).1.State = game2d.GameState.GameOver)
    ∧ ((⟨⟨⟨3, 5, 1, 20, 1⟩⟩, ⟨[⟨0, 1⟩], game2d.Direction.Left, 0⟩, ⟨2, 2⟩,
        3, 0, game2d.GameState.GameOver, 5, 0⟩ : game2d.Game).Update 1 true
          (fun _ => ⟨0, 0⟩)
        = ((⟨⟨⟨3, 5, 1, 20, 1⟩⟩, ⟨[⟨0, 1⟩], game2d.Direction.Left, 0⟩, ⟨2, 2⟩,
        3, 0, game2d.GameState.GameOver, 5, 0⟩ : game2d.Game), false))
    ∧ ((⟨⟨⟨3, 5, 1, 20, 1⟩⟩, ⟨[⟨0, 1⟩], game2d.Direction.Left, 0⟩, ⟨2, 2⟩,
        3, 0, game2d.GameState.GameOver, 5, 0⟩ : game2d.Game).TogglePause 1
        = (⟨⟨⟨3, 5, 1, 20, 1⟩⟩, ⟨[⟨0, 1⟩], game2d.Direction.Left, 0⟩, ⟨2, 2⟩,
        3, 0, game2d.GameState.GameOver, 5, 0⟩ : game2d.Game)) :=
  ⟨C4_wall_gameover_and_gameover_terminal.1 _ 1 (fun _ => ⟨0, 0⟩) rfl
      (by decide),
   C4_wall_gameover_and_gameover_terminal.2.1 _ 1 true (fun _ => ⟨0, 0⟩) rfl,
   C4_wall_gameover_and_gameover_terminal.2.2 _ 1 rfl⟩

/-- C6: with gridSize 10 and InitialLength 1, the fresh game has its head at
(5,5) moving Right; with the food parked at (0,0) (never on the traversed
cells), after 4 accepted ticks the state is still Playing with the head at
(9,5); the 5th accepted tick computes a new head with X = 10 and transitions
the state to GameOver. -/
theorem C6_gridsize10_five_ticks_to_gameover :
    let cfg : config.Config := ⟨⟨10, 5, 1, 20, 1⟩⟩
    let pf : List game2d.Point2D → game2d.Point2D := fun _ => ⟨0, 0⟩
    let g0 := game2d.NewGame cfg 0 pf
    let g1 := (g0.Update 1 true pf).1
    let g2 := (g1.Update 2 true pf).1
    let g3 := (g2.Update 3 true pf).1
    let g4 := (g3.Update 4 true pf).1
    let g5 := (g4.Update 5 true pf).1
    g0.Snake.Body = [⟨5, 5⟩]
      ∧ g0.Snake.Direction = game2d.Direction.Right
      ∧ g1.State = game2d.GameState.Playing
      ∧ g2.State = game2d.GameState.Playing
      ∧ g3.State = game2d.GameState.Playing
      ∧ g4.State = game2d.GameState.Playing
      ∧ g4.Snake.Body = [⟨9, 5⟩]
      ∧ g4.nextHead.X = 10
      ∧ g5.State = game2d.GameState.GameOver := by
  decide

/-- C7: with a snake of length at least 2 whose next head cell (one step
from the head in the current direction) equals the current tail segment,
the next accepted tick ends in GameOver: the self-collision scan of
`Update` compares the new head against every existing body segment,
including the tail cell that would otherwise be vacated this tick. -/
theorem C7_tail_cell_triggers_self_collision
    (g : game2d.Game) (now : Nat) (pf : List game2d.Point2D → game2d.Point2D)
    (t : game2d.Point2D)
    (hState : g.State = game2d.GameState.Playing)
    (hLen : 2 ≤ g.Snake.Body.length)
    (hTail : g.Snake.Body.getLast? = some t)
    (hHead : g.nextHead = t) :
    (g.Update now true pf).1.State = game2d.GameState.GameOver := by
  have ht : t ∈ g.Snake.Body := by
    rcases List.mem_getLast?_eq_getLast (Option.mem_def.mpr hTail) with ⟨hne, heq⟩
    rw [heq]
    exact List.getLast_mem hne
  have hhits : game2d.hits g.Snake.Body g.nextHead = true := by
    unfold game2d.hits
    rw [List.any_eq_true]
    exact ⟨t, ht, by rw [hHead]; simp⟩
  by_cases hW : game2d.outsideGrid g.Grid g.nextHead
  · simp [game2d.Game.Update, hState, hW]
  · simp [game2d.Game.Update, hState, hW, hhits]

/-- Witness for C7: a length-2 snake, head (1,1) moving Right into its tail
(2,1); the tick ends in GameOver. -/
theorem C7_witness :
    ((⟨⟨⟨4, 5, 1, 20, 2⟩⟩, ⟨[⟨1, 1⟩, ⟨2, 1⟩], game2d.Direction.Right, 0⟩,
        ⟨3, 3⟩, 4, 0, game2d.GameState.Playing, 5, 0⟩ : game2d.Game).Update 1
          true (fun _ => ⟨0, 0⟩)).1.State = game2d.GameState.GameOver :=
  C7_tail_cell_triggers_self_collision _ 1 (fun _ => ⟨0, 0⟩) ⟨2, 1⟩ rfl
    (by decide) (by decide) (by decide)

/-- C8: an accepted tick that ends in GameOver (wall or self collision)
changes nothing but `State` and `LastUpdate`: the snake (body, direction,
growCount), the food, the score, the speed — and also the grid size and
config — keep their previous values. -/
theorem C8_gameover_tick_preserves_all_other_fields
    (g : game2d.Game) (now : Nat) (pf : List game2d.Point2D → game2d.Point2D)
    (hState : g.State = game2d.GameState.Playing)
    (hOver : (g.Update now true pf).1.State = game2d.GameState.GameOver) :
    (g.Update now true pf).1.Snake = g.Snake
      ∧ (g.Update now true pf).1.Food = g.Food
      ∧ (g.Update now true pf).1.Score = g.Score
      ∧ (g.Update now true pf).1.Speed = g.Speed
      ∧ (g.Update now true pf).1.Grid = g.Grid
      ∧ (g.Update now true pf).1.Config = g.Config := by
  simp only [game2d.Game.Update, hState] at hOver ⊢
  split_ifs at hOver ⊢ <;> simp_all

/-- Witness for C8 at a concrete wall-collision tick (head (0,1) moving
Left on a 3×3 grid). -/
theorem C8_witness :
    (((⟨⟨⟨3, 5, 1, 20, 1⟩⟩, ⟨[⟨0, 1⟩], game2d.Direction.Left, 0⟩, ⟨2, 2⟩,
        3, 0, game2d.GameState.Playing, 5, 0⟩ : game2d.Game).Update 1 true
          (fun _ => ⟨0, 0⟩)).1.Snake
        = (⟨[⟨0, 1⟩], game2d.Direction.Left, 0⟩ : game2d.Snake))
    ∧ (((⟨⟨⟨3, 5, 1, 20, 1⟩⟩, ⟨[⟨0, 1⟩], game2d.Direction.Left, 0⟩, ⟨2, 2⟩,
        3, 0, game2d.GameState.Playing, 5, 0⟩ : game2d.Game).Update 1 true
          (fun _ => ⟨0, 0⟩)).1.Food = (⟨2, 2⟩ : game2d.Point2D)) := by
  have h := C8_gameover_tick_preserves_all_other_fields
    (⟨⟨⟨3, 5, 1, 20, 1⟩⟩, ⟨[⟨0, 1⟩], game2d.Direction.Left, 0⟩, ⟨2, 2⟩,
        3, 0, game2d.GameState.Playing, 5, 0⟩ : game2d.Game) 1
    (fun _ => ⟨0, 0⟩) rfl (by decide)
  exact ⟨h.1, h.2.1⟩

/-- C9: when the storage file is absent or unreadable (`Load` fails) and the
subsequent save succeeds, `NewStorage` returns a storage holding exactly the
default `GameData` — empty high-score list, MusicVolume 0.7, SfxVolume 0.8,
difficulty "medium" — and has persisted these defaults (the returned flag
records the `Save` call that wrote the storage file). -/
theorem C9_newstorage_creates_and_persists_defaults
    (path : String) (loadResult : Option storage.GameData) (saveOk : Bool)
    (hLoad : loadResult = none) (hSave : saveOk = true) :
    storage.NewStorage path loadResult saveOk
        = some (⟨path, storage.defaultGameData⟩, true)
      ∧ storage.defaultGameData.HighScores = []
      ∧ storage.defaultGameData.Settings.MusicVolume = 7/10
      ∧ storage.defaultGameData.Settings.SfxVolume = 8/10
      ∧ storage.defaultGameData.Settings.Difficulty = "medium" := by
  subst hLoad hSave
  exact ⟨rfl, rfl, rfl, rfl, rfl⟩

/-- Witness for C9 at the default storage path. -/
theorem C9_witness :
    storage.NewStorage "pkg/storage/storage.json" none true
      = some (⟨"pkg/storage/storage.json", storage.defaultGameData⟩, true) :=
  (C9_newstorage_creates_and_persists_defaults "pkg/storage/storage.json"
    none true rfl rfl).1

theorem scoreDesc_trans (a b c : storage.HighScore)
    (hab : storage.scoreDesc a b = true) (hbc : storage.scoreDesc b c = true) :
    storage.scoreDesc a c = true := by
  simp [storage.scoreDesc] at *
  exact le_trans hbc hab

theorem scoreDesc_total (a b : storage.HighScore) :
    (storage.scoreDesc a b || storage.scoreDesc b a) = true := by
  simp [storage.scoreDesc]
  exact le_total b.Score a.Score

/-- C10: starting from a high-score list sorted descending by score with at
most 10 entries, `AddHighScore` yields a list that is again sorted
descending by score, has at most 10 entries (exactly `min 10 (n+1)` of
them), and consists of the highest-scoring entries among the previous list
plus the new entry: the kept entries together with some dropped entries
permute the old list plus the new entry, and every dropped entry scores no
higher than every kept entry. -/
theorem C10_addhighscore_sorted_top10
    (s : storage.Storage) (player : String) (score : Int) (now : Nat)
    (hSorted : s.data.HighScores.Pairwise (fun a b => b.Score ≤ a.Score))
    (hLen : s.data.HighScores.length ≤ 10) :
    ((s.AddHighScore player score now).data.HighScores.Pairwise
        (fun a b => b.Score ≤ a.Score))
      ∧ (s.AddHighScore player score now).data.HighScores.length ≤ 10
      ∧ (s.AddHighScore player score now).data.HighScores.length
          = min 10 (s.data.HighScores.length + 1)
      ∧ ∃ dropped : List storage.HighScore,
          ((s.AddHighScore player score now).data.HighScores ++ dropped).Perm
            (s.data.HighScores ++ [⟨player, score, now⟩])
          ∧ ∀ d ∈ dropped,
              ∀ k ∈ (s.AddHighScore player score now).data.HighScores,
              d.Score ≤ k.Score := by
  have hperm := List.mergeSort_perm
    (s.data.HighScores ++ [(⟨player, score, now⟩ : storage.HighScore)])
    storage.scoreDesc
  have hsort' : ((s.data.HighScores
      ++ [(⟨player, score, now⟩ : storage.HighScore)]).mergeSort
        storage.scoreDesc).Pairwise (fun a b => b.Score ≤ a.Score) := by
    refine (List.sorted_mergeSort scoreDesc_trans scoreDesc_total _).imp ?_
    intro a b h
    simpa [storage.scoreDesc] using h
  have hlen' : ((s.data.HighScores
      ++ [(⟨player, score, now⟩ : storage.HighScore)]).mergeSort
        storage.scoreDesc).length = s.data.HighScores.length + 1 := by
    rw [hperm.length_eq, List.length_append, List.length_singleton]
  have hAdd : (s.AddHighScore player score now).data.HighScores
      = if 10 < ((s.data.HighScores
          ++ [(⟨player, score, now⟩ : storage.HighScore)]).mergeSort
            storage.scoreDesc).length then
          ((s.data.HighScores
            ++ [(⟨player, score, now⟩ : storage.HighScore)]).mergeSort
              storage.scoreDesc).take 10
        else
          (s.data.HighScores
            ++ [(⟨player, score, now⟩ : storage.HighScore)]).mergeSort
              storage.scoreDesc := rfl
  by_cases h10 : 10 < ((s.data.HighScores
      ++ [(⟨player, score, now⟩ : storage.HighScore)]).mergeSort
        storage.scoreDesc).length
  · rw [hAdd, if_pos h10]
    have hsplit := List.take_append_drop 10
      ((s.data.HighScores
        ++ [(⟨player, score, now⟩ : storage.HighScore)]).mergeSort
          storage.scoreDesc)
    have hpa := List.pairwise_append.mp (hsplit.symm ▸ hsort')
    refine ⟨?_, ?_, ?_, ?_⟩
    · exact List.Pairwise.sublist (List.take_sublist _ _) hsort'
    · rw [List.length_take]
      omega
    · rw [List.length_take]
      omega
    · refine ⟨((s.data.HighScores
        ++ [(⟨player, score, now⟩ : storage.HighScore)]).mergeSort
          storage.scoreDesc).drop 10, ?_, ?_⟩
      · rw [hsplit]
        exact hperm
      · intro d hd k hk
        exact hpa.2.2 k hk d hd
  · rw [hAdd, if_neg h10]
    refine ⟨hsort', by omega, by omega, ⟨[], by simpa using hperm, ?_⟩⟩
    intro d hd
    simp at hd

/-- Witness for C10: adding a score to an empty (trivially sorted) list
yields exactly one entry. -/
theorem C10_witness :
    ((⟨"pkg/storage/storage.json", ⟨[], ⟨7/10, 8/10, "medium"⟩⟩⟩ :
        storage.Storage).AddHighScore "A" 100 5).data.HighScores.length
      = min 10 (0 + 1) :=
  (C10_addhighscore_sorted_top10
    (⟨"pkg/storage/storage.json", ⟨[], ⟨7/10, 8/10, "medium"⟩⟩⟩ :
        storage.Storage) "A" 100 5 List.Pairwise.nil (by decide)).2.2.1

/-- Witness for C5: a snake moving Right ignores a Left (opposite) request
and accepts an Up request; the 3D snake moving Forward ignores Backward and
accepts Left. -/
theorem C5_witness :
    (((⟨⟨⟨3, 5, 1, 20, 1⟩⟩, ⟨[⟨1, 1⟩], game2d.Direction.Right, 0⟩, ⟨2, 2⟩, 3,
        0, game2d.GameState.Playing, 5, 0⟩ : game2d.Game).ChangeDirection
          (game2d.opposite game2d.Direction.Right)).Snake.Direction
        = game2d.Direction.Right)
    ∧ (((⟨⟨⟨3, 5, 1, 20, 1⟩⟩, ⟨[⟨1, 1⟩], game2d.Direction.Right, 0⟩, ⟨2, 2⟩, 3,
        0, game2d.GameState.Playing, 5, 0⟩ : game2d.Game).ChangeDirection
          game2d.Direction.Up).Snake.Direction = game2d.Direction.Up)
    ∧ (((⟨⟨⟨3, 5, 1, 20, 1⟩⟩, ⟨[⟨1, 1, 1⟩], game3d.Direction.Forward, 0⟩,
        ⟨2, 2, 2⟩, 3, 0, game3d.GameState.Playing, 5, 0⟩ :
          game3d.Game).ChangeDirection
          (game3d.opposite game3d.Direction.Forward)).Snake.Direction
        = game3d.Direction.Forward)
    ∧ (((⟨⟨⟨3, 5, 1, 20, 1⟩⟩, ⟨[⟨1, 1, 1⟩], game3d.Direction.Forward, 0⟩,
        ⟨2, 2, 2⟩, 3, 0, game3d.GameState.Playing, 5, 0⟩ :
          game3d.Game).ChangeDirection
          game3d.Direction.Left).Snake.Direction = game3d.Direction.Left) :=
  ⟨C5_change_direction_no_reversal.1 _,
   C5_change_direction_no_reversal.2.1 _ game2d.Direction.Up (by decide),
   C5_change_direction_no_reversal.2.2.1 _,
   C5_change_direction_no_reversal.2.2.2 _ game3d.Direction.Left (by decide)⟩
